import Mathlib

/-!
Verification of the statistical core of the Gumbel return-period rainfall
analysis (src/gumbel.py), as a shallow embedding over the reals.

The embedded functions mirror, line by line, `analise_recorrencia` and the
annual aggregation in `separar_dados_por_ano`:
  * `media`          — `np.mean(totais_anuais)` (line 42)
  * `desvio_padrao`  — `np.std(totais_anuais, ddof=1)` (line 43)
  * `totais_ordenados` — `np.sort(totais_anuais)[::-1]` (line 50)
  * `P_weibull` / `T_empirico` — lines 51–53
  * `T_alvo`, `Q_T`  — lines 60–62, with `gumbel_r.ppf` in closed form
  * `gumbel_cdf`     — the Gumbel CDF `exp(-exp(-(x-loc)/scale))`
  * `analise_recorrencia` — the whole function, parametric in the library
    fit `gumbel_r.fit` (an external iterative MLE with no closed form)
  * `resumo`         — the `groupby('Ano').agg(sum, max, count)` of
    lines 120–124
-/

namespace Gumbel

/-- `np.mean(totais_anuais)` (src/gumbel.py line 42). -/
noncomputable def media (xs : List ℝ) : ℝ := xs.sum / xs.length

/-- `np.std(totais_anuais, ddof=1)` (src/gumbel.py line 43): square root of
the sum of squared deviations from the mean divided by `n - 1`. -/
noncomputable def desvio_padrao (xs : List ℝ) : ℝ :=
  Real.sqrt ((xs.map (fun x => (x - media xs) ^ 2)).sum / ((xs.length : ℝ) - 1))

/-- `np.sort(totais_anuais)[::-1]` (src/gumbel.py line 50): sort ascending,
then reverse, yielding the totals in descending order. -/
noncomputable def totais_ordenados (xs : List ℝ) : List ℝ :=
  (List.insertionSort (· ≤ ·) xs).reverse

/-- `m = np.arange(1, n + 1); P = m / (n + 1)` (src/gumbel.py lines 51–52):
the Weibull plotting-position probabilities. -/
noncomputable def P_weibull (n : ℕ) : List ℝ :=
  (List.range' 1 n).map (fun m : ℕ => (m : ℝ) / ((n : ℝ) + 1))

/-- `T_empirico = 1 / P` (src/gumbel.py line 53). -/
noncomputable def T_empirico (n : ℕ) : List ℝ :=
  (P_weibull n).map (fun p => 1 / p)

/-- `1 / np.arange(1, len(resumo) + 1) * (len(resumo) + 1)`
(src/gumbel.py line 154), the empirical recurrence column of the export
step; `1 / m * (n + 1)` associates to the left. -/
noncomputable def tempo_recorrencia_export (n : ℕ) : List ℝ :=
  (List.range' 1 n).map (fun m : ℕ => 1 / (m : ℝ) * ((n : ℝ) + 1))

/-- `T_alvo = np.array([2, 5, 10, 25, 50, 100, 1000, 10000])`
(src/gumbel.py line 60). -/
def T_alvo : List ℝ := [2, 5, 10, 25, 50, 100, 1000, 10000]

/-- `gumbel_r.ppf(q, loc=loc, scale=scale)`: the closed-form quantile
function of the Gumbel (maxima) distribution,
`loc - scale * log(-log q)`. -/
noncomputable def gumbel_ppf (q loc scale : ℝ) : ℝ :=
  loc - scale * Real.log (-Real.log q)

/-- The CDF of the Gumbel (maxima) distribution,
`exp(-exp(-(x - loc) / scale))`. -/
noncomputable def gumbel_cdf (x loc scale : ℝ) : ℝ :=
  Real.exp (-Real.exp (-((x - loc) / scale)))

/-- `P_alvo = 1 / T_alvo; Q_T = gumbel_r.ppf(1 - P_alvo, loc, scale)`
(src/gumbel.py lines 61–62). -/
noncomputable def Q_T (loc scale : ℝ) : List ℝ :=
  T_alvo.map (fun T => gumbel_ppf (1 - 1 / T) loc scale)

/-- The dictionary returned by `analise_recorrencia`
(src/gumbel.py lines 89–97). -/
structure AnalysisResult where
  media : ℝ
  desvio_padrao : ℝ
  n_amostras : ℕ
  loc : ℝ
  scale : ℝ
  tempos_recorrencia : List ℝ
  totais_estimados : List ℝ
  totais_observados : List ℝ

/-- `analise_recorrencia(totais_anuais)` (src/gumbel.py lines 36–97),
parametric in the external library fit `gumbel_r.fit` (line 56), which
either raises (modelled as `Except.error` with the exception message) or
returns a `(loc, scale)` pair.  The function body itself contains no
conditional and no `raise`: every statistic is computed unconditionally
and packaged into the result dictionary. -/
noncomputable def analise_recorrencia (fit : List ℝ → Except String (ℝ × ℝ))
    (totais_anuais : List ℝ) : Except String AnalysisResult :=
  match fit totais_anuais with
  | .error e => .error e
  | .ok (loc, scale) =>
      .ok { media := media totais_anuais
            desvio_padrao := desvio_padrao totais_anuais
            n_amostras := totais_anuais.length
            loc := loc
            scale := scale
            tempos_recorrencia := T_alvo
            totais_estimados := Q_T loc scale
            totais_observados := totais_anuais }

/-- A dated rainfall observation after year extraction
(src/gumbel.py line 116): the calendar year and the numeric total. -/
structure Observation where
  ano : ℤ
  total : ℝ

/-- One row of the `resumo` frame (src/gumbel.py lines 120–124): year,
annual total (`sum`), annual maximum (`max`), observation count. -/
structure AnnualRecord where
  ano : ℤ
  total_anual : ℝ
  chuva_maxima : ℝ
  meses_com_dados : ℕ

/-- Maximum of a list of reals, as pandas `max` over a (nonempty) group. -/
noncomputable def max_lista : List ℝ → ℝ
  | [] => 0
  | x :: xs => xs.foldl max x

/-- `dados.groupby('Ano').agg({'Total': ['sum', 'max', 'count']})`
(src/gumbel.py lines 120–124): one record per distinct year, keys in
ascending order (pandas `groupby` sorts group keys). -/
noncomputable def resumo (dados : List Observation) : List AnnualRecord :=
  ((dados.map (·.ano)).dedup.insertionSort (· ≤ ·)).map (fun a =>
    let g := (dados.filter (fun o => o.ano = a)).map (·.total)
    { ano := a
      total_anual := g.sum
      chuva_maxima := max_lista g
      meses_com_dados := g.length })

/-- Claim C3: the analysis computes the sample standard deviation with the
`n - 1` divisor (Bessel's correction, `np.std(..., ddof=1)`); on the input
`[100, 200, 300]` the mean is `200` and the standard deviation is `100`. -/
theorem media_desvio_100_200_300 :
    media [100, 200, 300] = 200 ∧ desvio_padrao [100, 200, 300] = 100 := by
  have hm : media [100, 200, 300] = 200 := by
    norm_num [media]
  refine ⟨hm, ?_⟩
  unfold desvio_padrao
  rw [hm]
  norm_num
  rw [show (10000 : ℝ) = 100 ^ 2 by norm_num]
  exact Real.sqrt_sq (by norm_num)

/-- Claim C8: every Weibull plotting-position probability `P(m) = m/(n+1)`
produced at src/gumbel.py line 52 lies strictly between 0 and 1. -/
theorem P_weibull_entre_zero_e_um (n : ℕ) (p : ℝ) (hp : p ∈ P_weibull n) :
    0 < p ∧ p < 1 := by
  unfold P_weibull at hp
  rcases List.mem_map.mp hp with ⟨m, hm, rfl⟩
  obtain ⟨hm1, hm2⟩ := List.mem_range'_1.mp hm
  have hmpos : (0 : ℝ) < m := by exact_mod_cast Nat.lt_of_lt_of_le Nat.zero_lt_one hm1
  have hnpos : (0 : ℝ) < (n : ℝ) + 1 := by positivity
  refine ⟨div_pos hmpos hnpos, ?_⟩
  rw [div_lt_one hnpos]
  have : m < n + 1 := by omega
  exact_mod_cast this

/-- Witness for C8 at `n = 3`, `p = 1/4` (the rank-1 probability). -/
theorem P_weibull_entre_zero_e_um_witness :
    ((1 : ℝ) / 4 ∈ P_weibull 3) ∧ (0 < (1 : ℝ) / 4 ∧ (1 : ℝ) / 4 < 1) := by
  have hmem : (1 : ℝ) / 4 ∈ P_weibull 3 := by
    unfold P_weibull
    norm_num [List.range']
  exact ⟨hmem, P_weibull_entre_zero_e_um 3 (1 / 4) hmem⟩

/-- Claim C9: the empirical recurrence column of the analysis step
(`T_empirico = 1/P`, src/gumbel.py line 53) and the one recomputed in the
export step (`1/arange(1,n+1) * (n+1)`, line 154) are the same sequence
for every sample size `n ≥ 1`. -/
theorem T_empirico_eq_export (n : ℕ) (_h : 1 ≤ n) :
    T_empirico n = tempo_recorrencia_export n := by
  unfold T_empirico P_weibull tempo_recorrencia_export
  rw [List.map_map]
  refine List.map_congr_left (fun m _ => ?_)
  simp only [Function.comp_apply]
  rw [one_div_div, one_div, inv_mul_eq_div]

/-- Witness for C9 at `n = 3`. -/
theorem T_empirico_eq_export_witness :
    1 ≤ 3 ∧ T_empirico 3 = tempo_recorrencia_export 3 :=
  ⟨by norm_num, T_empirico_eq_export 3 (by norm_num)⟩

/-- The empirical recurrence intervals `1/P(m) = (n+1)/m` strictly decrease
as the rank `m` increases. -/
theorem T_empirico_pairwise_gt (n : ℕ) : (T_empirico n).Pairwise (· > ·) := by
  unfold T_empirico P_weibull
  rw [List.map_map, List.pairwise_map]
  refine (List.pairwise_lt_range' 1 n).imp_of_mem ?_
  intro a b ha hb hab
  rw [List.mem_range'_1] at ha hb
  have ha1 : (0 : ℝ) < a := by exact_mod_cast Nat.lt_of_lt_of_le Nat.zero_lt_one ha.1
  have hn : (0 : ℝ) < (n : ℝ) + 1 := by positivity
  simp only [Function.comp_apply]
  rw [one_div_div, one_div_div]
  exact div_lt_div_of_pos_left hn ha1 (by exact_mod_cast hab)

/-- Claim C4: for a non-empty input of length `n`, the ranking step yields
exactly `n` empirical totals, a descending rearrangement of the input, and
the empirical return periods `T_emp(m) = 1/(m/(n+1))` strictly decrease as
the rank `m` increases. -/
theorem ranking_empirico (xs : List ℝ) (_h : xs ≠ []) :
    (totais_ordenados xs).length = xs.length ∧
    (totais_ordenados xs).Perm xs ∧
    (totais_ordenados xs).Sorted (· ≥ ·) ∧
    (T_empirico xs.length).Pairwise (· > ·) := by
  refine ⟨?_, ?_, ?_, T_empirico_pairwise_gt xs.length⟩
  · unfold totais_ordenados
    rw [List.length_reverse, List.length_insertionSort]
  · exact (List.reverse_perm _).trans (List.perm_insertionSort _ xs)
  · have hs := List.sorted_insertionSort (· ≤ ·) xs
    unfold totais_ordenados
    rw [List.Sorted, List.pairwise_reverse]
    exact hs

/-- Witness for C4 at the concrete input `[1000, 1200, 900]`. -/
theorem ranking_empirico_witness :
    (([1000, 1200, 900] : List ℝ) ≠ []) ∧
    ((totais_ordenados [1000, 1200, 900]).length = ([1000, 1200, 900] : List ℝ).length ∧
     (totais_ordenados [1000, 1200, 900]).Perm [1000, 1200, 900] ∧
     (totais_ordenados [1000, 1200, 900]).Sorted (· ≥ ·) ∧
     (T_empirico ([1000, 1200, 900] : List ℝ).length).Pairwise (· > ·)) :=
  ⟨by simp, ranking_empirico [1000, 1200, 900] (by simp)⟩

/-- Every canonical target return period is greater than `1`. -/
theorem T_alvo_gt_one : ∀ T ∈ T_alvo, (1 : ℝ) < T := by
  intro T hT
  simp only [T_alvo, List.mem_cons, List.not_mem_nil, or_false] at hT
  rcases hT with rfl | rfl | rfl | rfl | rfl | rfl | rfl | rfl <;> norm_num

/-- The canonical target return periods are in strictly ascending order. -/
theorem T_alvo_pairwise_lt : T_alvo.Pairwise (· < ·) := by
  simp only [T_alvo, List.pairwise_cons, List.mem_cons, List.not_mem_nil, or_false,
    List.Pairwise.nil, and_true]
  norm_num

/-- The Gumbel quantile at exceedance `1/T` is strictly increasing in the
return period `T`, for `scale > 0` and `1 < T₁ < T₂`. -/
theorem gumbel_ppf_lt_of_lt (loc scale T1 T2 : ℝ) (hs : 0 < scale)
    (h1 : 1 < T1) (h12 : T1 < T2) :
    gumbel_ppf (1 - 1 / T1) loc scale < gumbel_ppf (1 - 1 / T2) loc scale := by
  have hT1 : (0 : ℝ) < T1 := lt_trans one_pos h1
  have hT2 : (0 : ℝ) < T2 := lt_trans hT1 h12
  have hq1pos : 0 < 1 - 1 / T1 := by
    rw [sub_pos, div_lt_one hT1]
    exact h1
  have hlt : 1 - 1 / T1 < 1 - 1 / T2 := by
    have := one_div_lt_one_div_of_lt hT1 h12
    linarith
  have hq2lt1 : 1 - 1 / T2 < 1 := by
    have : 0 < 1 / T2 := by positivity
    linarith
  have hlog1 : Real.log (1 - 1 / T1) < Real.log (1 - 1 / T2) :=
    Real.log_lt_log hq1pos hlt
  have hlog2neg : Real.log (1 - 1 / T2) < 0 := Real.log_neg (by linarith) hq2lt1
  have houter : Real.log (-Real.log (1 - 1 / T2)) < Real.log (-Real.log (1 - 1 / T1)) :=
    Real.log_lt_log (by linarith) (by linarith)
  unfold gumbel_ppf
  have := mul_lt_mul_of_pos_left houter hs
  linarith

/-- Claim C5: for `scale > 0` the estimated totals `Q(T)` over the canonical
target set are strictly increasing in `T`. -/
theorem totais_estimados_crescentes (loc scale : ℝ) (hs : 0 < scale) :
    (Q_T loc scale).Pairwise (· < ·) := by
  unfold Q_T
  rw [List.pairwise_map]
  refine T_alvo_pairwise_lt.imp_of_mem ?_
  intro a b ha _ hab
  exact gumbel_ppf_lt_of_lt loc scale a b hs (T_alvo_gt_one a ha) hab

/-- Witness for C5 at `loc = 0`, `scale = 1`. -/
theorem totais_estimados_crescentes_witness :
    (0 : ℝ) < 1 ∧ (Q_T 0 1).Pairwise (· < ·) :=
  ⟨one_pos, totais_estimados_crescentes 0 1 one_pos⟩

/-- Evaluating the Gumbel CDF at the Gumbel quantile of `q` gives back `q`
exactly, for `scale > 0` and `0 < q < 1`. -/
theorem gumbel_cdf_gumbel_ppf (q loc scale : ℝ) (hs : 0 < scale)
    (h0 : 0 < q) (h1 : q < 1) :
    gumbel_cdf (gumbel_ppf q loc scale) loc scale = q := by
  unfold gumbel_cdf gumbel_ppf
  have hlq : Real.log q < 0 := Real.log_neg h0 h1
  have hsne : scale ≠ 0 := ne_of_gt hs
  have harg : -((loc - scale * Real.log (-Real.log q) - loc) / scale) =
      Real.log (-Real.log q) := by
    field_simp
  rw [harg, Real.exp_log (by linarith), neg_neg, Real.exp_log h0]

/-- Claim C6: for `scale > 0` and every `T` in the canonical target set, the
fitted CDF evaluated at the estimate `Q(T)` reproduces `1 - 1/T` to within
`1e-6` (the embedding recovers it exactly). -/
theorem cdf_quantil_ida_e_volta (loc scale T : ℝ) (hs : 0 < scale)
    (hT : T ∈ T_alvo) :
    |gumbel_cdf (gumbel_ppf (1 - 1 / T) loc scale) loc scale - (1 - 1 / T)| < 1e-6 := by
  have h1T : (1 : ℝ) < T := T_alvo_gt_one T hT
  have hTpos : (0 : ℝ) < T := lt_trans one_pos h1T
  have h0 : 0 < 1 - 1 / T := by
    rw [sub_pos, div_lt_one hTpos]
    exact h1T
  have h1 : 1 - 1 / T < 1 := by
    have : 0 < 1 / T := by positivity
    linarith
  rw [gumbel_cdf_gumbel_ppf (1 - 1 / T) loc scale hs h0 h1, sub_self, abs_zero]
  norm_num

/-- Witness for C6 at `loc = 0`, `scale = 1`, `T = 2`. -/
theorem cdf_quantil_ida_e_volta_witness :
    (0 : ℝ) < 1 ∧ (2 : ℝ) ∈ T_alvo ∧
    |gumbel_cdf (gumbel_ppf (1 - 1 / 2) 0 1) 0 1 - (1 - 1 / 2)| < 1e-6 :=
  ⟨one_pos, by simp [T_alvo],
   cdf_quantil_ida_e_volta 0 1 2 one_pos (by simp [T_alvo])⟩

/-- Claim C2: the estimator evaluates the Gumbel quantile at `1 - 1/T` for
each `T` of the canonical target set, yielding exactly one estimate per
target, in the same (ascending-`T`) order. -/
theorem um_quantil_por_T_alvo (loc scale : ℝ) :
    (Q_T loc scale).length = T_alvo.length ∧
    (∀ i : ℕ, (Q_T loc scale)[i]? =
      T_alvo[i]?.map (fun T => gumbel_ppf (1 - 1 / T) loc scale)) ∧
    T_alvo.Pairwise (· < ·) := by
  refine ⟨?_, fun i => ?_, T_alvo_pairwise_lt⟩
  · unfold Q_T
    rw [List.length_map]
  · unfold Q_T
    rw [List.getElem?_map]

/-- Claim C7: aggregating observations dated in years `[2020, 2020, 2021]`
with totals `[10, 20, 5]` yields the records
`(2020, total 30, max 20, count 2)` and `(2021, total 5, max 5, count 1)`. -/
theorem resumo_anual_2020_2021 :
    resumo [⟨2020, 10⟩, ⟨2020, 20⟩, ⟨2021, 5⟩] =
      [⟨2020, 30, 20, 2⟩, ⟨2021, 5, 5, 1⟩] := by
  unfold resumo
  norm_num [List.dedup_cons_of_mem, List.dedup_cons_of_not_mem, List.insertionSort,
    List.orderedInsert, List.filter, max_lista]

/-- Claim C1 (amended): `analise_recorrencia` performs no degeneracy check.
Every error it returns is the library fit's own error, and whenever the
library fit returns a `(loc, scale)` pair on `[150]` or on `[150, 150]`,
the analysis returns a result packaging that pair instead of raising
`FitDegenerate`. -/
theorem analise_sem_verificacao_degenerada
    (fit : List ℝ → Except String (ℝ × ℝ)) (loc1 scale1 loc2 scale2 : ℝ)
    (h1 : fit [150] = .ok (loc1, scale1))
    (h2 : fit [150, 150] = .ok (loc2, scale2)) :
    (∀ (xs : List ℝ) (e : String),
        analise_recorrencia fit xs = .error e → fit xs = .error e) ∧
    (∃ r, analise_recorrencia fit [150] = .ok r ∧
        r.loc = loc1 ∧ r.scale = scale1) ∧
    (∃ r, analise_recorrencia fit [150, 150] = .ok r ∧
        r.loc = loc2 ∧ r.scale = scale2) := by
  refine ⟨?_, ?_, ?_⟩
  · intro xs e he
    unfold analise_recorrencia at he
    cases hf : fit xs with
    | error e2 =>
        rw [hf] at he
        simp only [Except.error.injEq] at he
        rw [he]
    | ok p =>
        obtain ⟨l, s⟩ := p
        rw [hf] at he
        exact absurd he (by simp)
  · unfold analise_recorrencia
    rw [h1]
    exact ⟨_, rfl, rfl, rfl⟩
  · unfold analise_recorrencia
    rw [h2]
    exact ⟨_, rfl, rfl, rfl⟩

/-- Witness for the amended C1, with a concrete library fit that returns
`(150, 1)` on every input. -/
theorem analise_sem_verificacao_degenerada_witness :
    ((fun _ : List ℝ => (Except.ok ((150 : ℝ), (1 : ℝ)) : Except String (ℝ × ℝ)))
        [150] = Except.ok (150, 1)) ∧
    ((fun _ : List ℝ => (Except.ok ((150 : ℝ), (1 : ℝ)) : Except String (ℝ × ℝ)))
        [150, 150] = Except.ok (150, 1)) ∧
    ((∀ (xs : List ℝ) (e : String),
        analise_recorrencia
          (fun _ : List ℝ => (Except.ok ((150 : ℝ), (1 : ℝ)) : Except String (ℝ × ℝ)))
          xs = .error e →
        (fun _ : List ℝ => (Except.ok ((150 : ℝ), (1 : ℝ)) : Except String (ℝ × ℝ)))
          xs = .error e) ∧
     (∃ r, analise_recorrencia
          (fun _ : List ℝ => (Except.ok ((150 : ℝ), (1 : ℝ)) : Except String (ℝ × ℝ)))
          [150] = .ok r ∧ r.loc = 150 ∧ r.scale = 1) ∧
     (∃ r, analise_recorrencia
          (fun _ : List ℝ => (Except.ok ((150 : ℝ), (1 : ℝ)) : Except String (ℝ × ℝ)))
          [150, 150] = .ok r ∧ r.loc = 150 ∧ r.scale = 1)) :=
  ⟨rfl, rfl, analise_sem_verificacao_degenerada _ 150 1 150 1 rfl rfl⟩

/-- Counterexample to C1 as stated: with a library fit that returns a
`(loc, scale)` pair on the degenerate inputs, the analysis returns a
fitted result and raises no `FitDegenerate` on `[150]` or `[150, 150]`. -/
theorem analise_devolve_resultado_degenerado :
    analise_recorrencia (fun _ => .ok (150, 1)) [150] ≠ .error "FitDegenerate" ∧
    analise_recorrencia (fun _ => .ok (150, 1)) [150, 150] ≠ .error "FitDegenerate" ∧
    (∃ r, analise_recorrencia (fun _ => .ok (150, 1)) [150, 150] = .ok r) :=
  ⟨fun hcontra => Except.noConfusion hcontra,
   fun hcontra => Except.noConfusion hcontra,
   ⟨_, rfl⟩⟩

/-- Claim C10: the analysis result carries the input sequence itself under
`totais_observados` and its exact length under `n_amostras`; the ranking
step sorts a separate copy, a rearrangement of the untouched input. -/
theorem resultado_preserva_entrada
    (fit : List ℝ → Except String (ℝ × ℝ)) (xs : List ℝ) (loc scale : ℝ)
    (h : fit xs = .ok (loc, scale)) :
    ∃ r, analise_recorrencia fit xs = .ok r ∧ r.totais_observados = xs ∧
      r.n_amostras = xs.length ∧ (totais_ordenados xs).Perm xs := by
  unfold analise_recorrencia
  rw [h]
  exact ⟨_, rfl, rfl, rfl, (List.reverse_perm _).trans (List.perm_insertionSort _ xs)⟩

/-- Witness for C10 at the concrete input `[3, 1]` with a concrete fit. -/
theorem resultado_preserva_entrada_witness :
    ((fun _ : List ℝ => (Except.ok ((0 : ℝ), (1 : ℝ)) : Except String (ℝ × ℝ)))
        [3, 1] = Except.ok (0, 1)) ∧
    ∃ r, analise_recorrencia
        (fun _ : List ℝ => (Except.ok ((0 : ℝ), (1 : ℝ)) : Except String (ℝ × ℝ)))
        [3, 1] = Except.ok r ∧
      r.totais_observados = [3, 1] ∧ r.n_amostras = ([3, 1] : List ℝ).length ∧
      (totais_ordenados [3, 1]).Perm [3, 1] :=
  ⟨rfl, resultado_preserva_entrada _ [3, 1] 0 1 rfl⟩

end Gumbel
